import Mathlib

/-
  Shallow embedding of the SocialUwU post-feed CRUD service
  (the Express router over the Mongo-backed post collection).

  Modelling conventions:
  - Document identifiers (post ids, user ids) are modelled as `Nat`.
    MongoDB ObjectIds are totally ordered (bytewise); `Nat` with its
    linear order stands in for that order.
  - The post collection is a list of `Post` documents in natural
    (insertion) order; a `find` without `sort` returns that order.
  - `Post.find().sort(key, -1)` is a stable sort, descending on the key.
    For an ARRAY-valued key (the `likes` field in the trending route),
    MongoDB documents that a descending sort compares documents by the
    LARGEST element of the array, and treats an empty array as below
    every value; `maxLike`/`optLe` encode exactly that.
  - `$push` appends one element; `$pull` removes every occurrence.
  - express-validator: `exists()` fails only for a missing field (an
    empty string is present); `isLength(min,max)` is inclusive on both
    ends; a missing field is coerced to the empty string for `isLength`,
    so a missing caption violates both rules of its chain; the response
    carries the FIRST collected error message.
  - A handler body that dereferences a null lookup result throws, and
    the catch-all returns HTTP 500.
-/

namespace SocialUwU

/-- One entry of a post's `comments` array: the denormalized author
snapshot `userboi` (the serialized user minus the omitted key, as a
field-name/value list) and the comment text. -/
structure CommentDoc where
  userboi : List (String × String)
  comment : String
deriving DecidableEq

/-- A document of the post collection. -/
structure Post where
  id : Nat
  caption : String
  image : String
  userId : Nat
  likes : List Nat
  comments : List CommentDoc
  createdAt : Nat
deriving DecidableEq

/-- A document of the user collection: its id and its serialized
(`toJSON`) field-name/value pairs, which include the password field. -/
structure UserDoc where
  id : Nat
  fields : List (String × String)
deriving DecidableEq

/-- The post store: the collection in natural (insertion) order. -/
abbrev Store := List Post

/-- The response a route handler sends. -/
inductive Resp where
  | ok (posts : List Post)
  | badRequest (error : String)
  | forbidden (error : String)
  | serverError
deriving DecidableEq

/-- The HTTP status code of a response (`res.json` alone sends 200). -/
def Resp.status : Resp → Nat
  | .ok _ => 200
  | .badRequest _ => 400
  | .forbidden _ => 403
  | .serverError => 500

/-- `Post.findById`: the first (in a real collection, only) document
with the given id, if any. -/
def findById (s : Store) (postId : Nat) : Option Post :=
  s.find? (fun p => p.id == postId)

/-- `User.findById` on the user collection. -/
def findUserById (users : List UserDoc) (userId : Nat) : Option UserDoc :=
  users.find? (fun u => u.id == userId)

/-- `updateOne` / `findByIdAndUpdate` targeting the document with the
given id: apply `f` to it, leave every other document unchanged. -/
def updatePostIn (s : Store) (postId : Nat) (f : Post → Post) : Store :=
  s.map (fun p => if p.id == postId then f p else p)

/-- The order of `.sort(createdAt, -1)`: newest first. -/
def createdAtGe (a b : Post) : Prop := b.createdAt ≤ a.createdAt

instance : DecidableRel createdAtGe :=
  fun a b => inferInstanceAs (Decidable (b.createdAt ≤ a.createdAt))

instance : IsTotal Post createdAtGe :=
  ⟨fun a b => Nat.le_total b.createdAt a.createdAt⟩

instance : IsTrans Post createdAtGe :=
  ⟨fun _ _ _ h1 h2 => Nat.le_trans h2 h1⟩

/-- `Post.find().sort(createdAt, -1)`: stable sort, newest first. -/
def sortByCreatedAtDesc (s : Store) : List Post :=
  List.insertionSort createdAtGe s

/-- The sort key MongoDB uses for a descending sort on the array-valued
`likes` field: the largest element, with the empty array below all. -/
def maxLike (p : Post) : Option Nat :=
  p.likes.foldl (fun m x =>
    match m with
    | none => some x
    | some y => some (max y x)) none

/-- Order on the array sort keys: `none` (empty array) is the bottom. -/
def optLe : Option Nat → Option Nat → Prop
  | none, _ => True
  | some _, none => False
  | some a, some b => a ≤ b

instance instDecidableOptLe : (x y : Option Nat) → Decidable (optLe x y)
  | none, _ => isTrue trivial
  | some _, none => isFalse (fun h => h)
  | some a, some b => inferInstanceAs (Decidable (a ≤ b))

/-- The order of `.sort(likes, -1)` on documents: larger maximal liker
id first. -/
def trendGe (a b : Post) : Prop := optLe (maxLike b) (maxLike a)

instance : DecidableRel trendGe :=
  fun a b => instDecidableOptLe (maxLike b) (maxLike a)

/-- The ordering the specification claims for trending: by likes
count, descending. Stated here only to compare against `trendGe`, the
order the code actually produces. -/
def likesCountGe (a b : Post) : Prop := b.likes.length ≤ a.likes.length

instance : DecidableRel likesCountGe :=
  fun a b => inferInstanceAs (Decidable (b.likes.length ≤ a.likes.length))

/-- Error messages, verbatim from the router. -/
def captionRequiredMsg : String := "Caption in required"

def captionLengthMsg : String := "Caption must be between 5 and 100 characters"

def imageRequiredMsg : String := "Image is required"

def commentRequiredMsg : String := "Comment is required"

def deleteForbiddenMsg : String := "You can\x27t delete other posts"

def updateForbiddenMsg : String := "You can\x27t update other posts"

/-- The validation chains shared by the create and update routes, in
declaration order; the result is the list of collected error messages.
A missing caption fails both `exists()` and `isLength` (the missing
value is coerced to the empty string for the latter). -/
def validateCaptionImage (caption image : Option String) : List String :=
  (match caption with
   | none => [captionRequiredMsg, captionLengthMsg]
   | some c =>
     if 5 ≤ c.length ∧ c.length ≤ 100 then [] else [captionLengthMsg])
  ++ (match image with
      | none => [imageRequiredMsg]
      | some _ => [])

/-- The ways a create/update body is invalid: caption missing, caption
present but out of the inclusive 5..100 length bounds, or image
missing. -/
def bodyInvalid (caption image : Option String) : Prop :=
  caption = none ∨
  (∃ c, caption = some c ∧ (c.length < 5 ∨ 100 < c.length)) ∨
  image = none

/-- GET `/`: all posts, newest first. -/
def getAllList (s : Store) : List Post := sortByCreatedAtDesc s

/-- GET `/` as a response. -/
def getAllPosts (s : Store) : Resp := .ok (getAllList s)

/-- POST `/`: validate, then `Post.create` (append to the collection)
and answer with the full sorted list. `newId` and `now` are the id and
timestamp the database assigns to the new document. -/
def createPost (s : Store) (caption image : Option String)
    (userId newId now : Nat) : Resp × Store :=
  match validateCaptionImage caption image with
  | msg :: _ => (.badRequest msg, s)
  | [] =>
    match caption, image with
    | some c, some i =>
      let s2 := s ++ [⟨newId, c, i, userId, [], [], now⟩]
      (.ok (sortByCreatedAtDesc s2), s2)
    | _, _ => (.serverError, s)

/-- GET `/userposts/:userId`: `Post.find(userId)` with NO sort, so the
matching documents come back in natural collection order. -/
def userPostsList (s : Store) (userId : Nat) : List Post :=
  s.filter (fun p => p.userId == userId)

/-- GET `/userposts/:userId` as a response. -/
def getUserPosts (s : Store) (userId : Nat) : Resp :=
  .ok (userPostsList s userId)

/-- PUT `/like/:postId`: find the post; a null result throws on
`post.likes` and is reported as 500. Otherwise `$pull` the caller from
`likes` when present, else `$push` them, and answer with the full
sorted list. -/
def toggleLike (s : Store) (postId userId : Nat) : Resp × Store :=
  match findById s postId with
  | none => (.serverError, s)
  | some post =>
    if userId ∈ post.likes then
      let s2 := updatePostIn s postId
        (fun p => { p with likes := p.likes.filter (fun x => x != userId) })
      (.ok (sortByCreatedAtDesc s2), s2)
    else
      let s2 := updatePostIn s postId
        (fun p => { p with likes := p.likes ++ [userId] })
      (.ok (sortByCreatedAtDesc s2), s2)

/-- GET `/trending`: `Post.find().sort(likes, -1).limit(5)` — the
MongoDB descending array sort on `likes` (largest element as key),
truncated to 5 documents. -/
def trendingList (s : Store) : List Post :=
  (List.insertionSort trendGe s).take 5

/-- GET `/trending` as a response. -/
def trendingResp (s : Store) : Resp := .ok (trendingList s)

/-- DELETE `/:postId`: find the post (null throws → 500), check
ownership, then `findByIdAndDelete` and answer with the sorted list. -/
def deletePost (s : Store) (postId callerId : Nat) : Resp × Store :=
  match findById s postId with
  | none => (.serverError, s)
  | some post =>
    if post.userId == callerId then
      let s2 := s.filter (fun p => p.id != postId)
      (.ok (sortByCreatedAtDesc s2), s2)
    else (.forbidden deleteForbiddenMsg, s)

/-- PUT `/:postId`: validation first, then find the post (null throws →
500), then the ownership check, then `findByIdAndUpdate` replacing only
`caption` and `image`. -/
def updatePost (s : Store) (postId : Nat) (caption image : Option String)
    (callerId : Nat) : Resp × Store :=
  match validateCaptionImage caption image with
  | msg :: _ => (.badRequest msg, s)
  | [] =>
    match findById s postId with
    | none => (.serverError, s)
    | some post =>
      if post.userId == callerId then
        match caption, image with
        | some c, some i =>
          let s2 := updatePostIn s postId
            (fun p => { p with caption := c, image := i })
          (.ok (sortByCreatedAtDesc s2), s2)
        | _, _ => (.serverError, s)
      else (.forbidden updateForbiddenMsg, s)

/-- `omit(user.toJSON(), password)`: the serialized user minus the
password field. -/
def snapshot (u : UserDoc) : List (String × String) :=
  u.fields.filter (fun kv => kv.1 != "password")

/-- POST `/:postId/comment`: `exists()` on the comment field (an empty
string is present and passes), find the post (null throws on
`post.updateOne` → 500), look the caller up (a missing user serializes
to an empty snapshot thanks to optional chaining), `$push` the comment
entry, answer with the sorted list. -/
def commentPost (s : Store) (users : List UserDoc) (postId callerId : Nat)
    (comment : Option String) : Resp × Store :=
  match comment with
  | none => (.badRequest commentRequiredMsg, s)
  | some c =>
    match findById s postId with
    | none => (.serverError, s)
    | some _ =>
      let userboi :=
        match findUserById users callerId with
        | none => []
        | some u => snapshot u
      let s2 := updatePostIn s postId
        (fun p => { p with comments := p.comments ++ [⟨userboi, c⟩] })
      (.ok (sortByCreatedAtDesc s2), s2)

/-- The likes array of the post with the given id (empty when the post
is missing); a convenience accessor for stating properties. -/
def likesOf (s : Store) (postId : Nat) : List Nat :=
  ((findById s postId).map Post.likes).getD []

/-- The comments array of the post with the given id (empty when the
post is missing); a convenience accessor for stating properties. -/
def commentsOf (s : Store) (postId : Nat) : List CommentDoc :=
  ((findById s postId).map Post.comments).getD []

/-! Concrete fixtures used by witnesses and counterexamples. -/

/-- A post with no likes and no comments, owned by user 7. -/
def exPost1 : Post := ⟨1, "hello world", "img.png", 7, [], [], 10⟩

/-- A one-post store. -/
def exStore1 : Store := [exPost1]

/-- A user document whose serialization carries a password field. -/
def exUser : UserDoc :=
  ⟨7, [("name", "raghav"), ("password", "hunter2"), ("email", "r at x")]⟩

/-- A one-user user collection. -/
def exUsers : List UserDoc := [exUser]

/-- An older post (createdAt 1) by user 7, stored first. -/
def exOld : Post := ⟨1, "first post", "a.png", 7, [], [], 1⟩

/-- A newer post (createdAt 2) by user 7, stored second. -/
def exNew : Post := ⟨2, "second post", "b.png", 7, [], [], 2⟩

/-- A store whose natural order is oldest first. -/
def exStore4 : Store := [exOld, exNew]

/-- A post with a single like by the high user id 9. -/
def exT1 : Post := ⟨1, "liked by user nine", "a.png", 3, [9], [], 1⟩

/-- A post with two likes, by the low user ids 1 and 2. -/
def exT2 : Post := ⟨2, "liked by users one and two", "b.png", 4, [1, 2], [], 2⟩

/-- A store where like COUNT order and MongoDB array sort order differ. -/
def exStoreT : Store := [exT1, exT2]

/-- A caption of length exactly 100. -/
def cap100 : String := String.mk (List.replicate 100 'a')

/-- A caption of length exactly 101. -/
def cap101 : String := String.mk (List.replicate 101 'a')

/-! Helper lemmas about the store primitives. -/

/-- Updating the document a successful lookup returned is visible to the
next lookup of the same id, provided the update keeps the id. -/
theorem findById_updatePostIn_self (s : Store) (pid : Nat) (f : Post → Post)
    (hf : ∀ q, (f q).id = q.id) :
    ∀ p, findById s pid = some p →
      findById (updatePostIn s pid f) pid = some (f p) := by
  induction s with
  | nil => intro p hp; simp [findById] at hp
  | cons q t ih =>
    intro p hp
    by_cases h : q.id = pid
    · simp [findById, List.find?_cons, h] at hp
      subst hp
      simp [updatePostIn, findById, List.find?_cons, h, hf]
    · simp [findById, List.find?_cons, h] at hp
      simpa [updatePostIn, findById, List.find?_cons, h] using ih p hp

/-- Updating the document with one id leaves lookups of any other id
unchanged, provided the update keeps the id. -/
theorem findById_updatePostIn_other (s : Store) (pid qid : Nat) (f : Post → Post)
    (hf : ∀ q, (f q).id = q.id) (hne : qid ≠ pid) :
    findById (updatePostIn s pid f) qid = findById s qid := by
  induction s with
  | nil => rfl
  | cons q t ih =>
    have hnp : pid ≠ qid := fun hc => hne hc.symm
    by_cases h : q.id = pid
    · simpa [updatePostIn, findById, List.find?_cons, h, hf, hnp] using ih
    · by_cases hq : q.id = qid
      · simp [updatePostIn, findById, List.find?_cons, h, hq, hne]
      · simpa [updatePostIn, findById, List.find?_cons, h, hq] using ih

/-- After deleting every document with a given id, looking that id up
fails. -/
theorem findById_filter_ne (s : Store) (pid : Nat) :
    findById (s.filter (fun p => p.id != pid)) pid = none := by
  apply List.find?_eq_none.mpr
  intro x hx
  have hmem := (List.mem_filter.mp hx).2
  simp only [bne_iff_ne, ne_eq, decide_eq_true_eq] at hmem
  simp [hmem]

/-- A toggle whose caller already likes the found post stores the
$pull update. -/
theorem toggleLike_pull (s : Store) (pid uid : Nat) (p : Post)
    (hp : findById s pid = some p) (hm : uid ∈ p.likes) :
    (toggleLike s pid uid).2 = updatePostIn s pid
      (fun q => { q with likes := q.likes.filter (fun x => x != uid) }) := by
  simp [toggleLike, hp, hm]

/-- A toggle whose caller does not yet like the found post stores the
$push update. -/
theorem toggleLike_push (s : Store) (pid uid : Nat) (p : Post)
    (hp : findById s pid = some p) (hm : uid ∉ p.likes) :
    (toggleLike s pid uid).2 = updatePostIn s pid
      (fun q => { q with likes := q.likes ++ [uid] }) := by
  simp only [toggleLike, hp]
  rw [if_neg hm]

/-! Claim theorems. -/

/-- C1: for every post P and authenticated user U, the toggle-like
operation removes U from the likes of P when already a member and adds
U otherwise; toggling twice by the same user U returns the likes of P
to the original set, and after a single toggle by U starting from U
absent, U appears in the likes of P exactly once. -/
theorem toggleLike_toggle_membership (s : Store) (pid uid : Nat) (p : Post)
    (hp : findById s pid = some p) :
    (∀ x, x ∈ likesOf (toggleLike (toggleLike s pid uid).2 pid uid).2 pid ↔
      x ∈ p.likes) ∧
    (uid ∉ p.likes →
      (likesOf (toggleLike s pid uid).2 pid).count uid = 1) := by
  by_cases hm : uid ∈ p.likes
  · have f1 : findById (toggleLike s pid uid).2 pid =
        some { p with likes := p.likes.filter (fun x => x != uid) } := by
      rw [toggleLike_pull s pid uid p hp hm]
      exact findById_updatePostIn_self s pid
        (fun q => { q with likes := q.likes.filter (fun x => x != uid) })
        (fun q => rfl) p hp
    have hm2 : uid ∉ p.likes.filter (fun x => x != uid) := by simp
    have f2 : findById (toggleLike (toggleLike s pid uid).2 pid uid).2 pid =
        some { p with likes := p.likes.filter (fun x => x != uid) ++ [uid] } := by
      rw [toggleLike_push (toggleLike s pid uid).2 pid uid
        { p with likes := p.likes.filter (fun x => x != uid) } f1 hm2]
      exact findById_updatePostIn_self (toggleLike s pid uid).2 pid
        (fun q => { q with likes := q.likes ++ [uid] }) (fun q => rfl) _ f1
    refine ⟨?_, fun hno => absurd hm hno⟩
    intro x
    rw [likesOf, f2]
    by_cases hx : x = uid
    · subst hx; simp [hm]
    · simp [List.mem_filter, hx]
  · have f1 : findById (toggleLike s pid uid).2 pid =
        some { p with likes := p.likes ++ [uid] } := by
      rw [toggleLike_push s pid uid p hp hm]
      exact findById_updatePostIn_self s pid
        (fun q => { q with likes := q.likes ++ [uid] }) (fun q => rfl) p hp
    have hm2 : uid ∈ p.likes ++ [uid] := by simp
    have f2 : findById (toggleLike (toggleLike s pid uid).2 pid uid).2 pid =
        some { p with likes := (p.likes ++ [uid]).filter (fun x => x != uid) } := by
      rw [toggleLike_pull (toggleLike s pid uid).2 pid uid
        { p with likes := p.likes ++ [uid] } f1 hm2]
      exact findById_updatePostIn_self (toggleLike s pid uid).2 pid
        (fun q => { q with likes := q.likes.filter (fun x => x != uid) })
        (fun q => rfl) _ f1
    have hfil : (p.likes ++ [uid]).filter (fun x => x != uid) = p.likes := by
      rw [List.filter_append]
      have h1 : p.likes.filter (fun x => x != uid) = p.likes :=
        List.filter_eq_self.mpr (fun a ha => by
          simp only [bne_iff_ne, ne_eq, decide_eq_true_eq]
          exact fun hc => hm (hc ▸ ha))
      simp [h1]
    constructor
    · intro x
      rw [likesOf, f2]
      simp [hfil]
    · intro _
      rw [likesOf, f1]
      simp [List.count_append, List.count_eq_zero.mpr hm]

/-- C1 witness: on a one-post store with no likes, one toggle by user 5
leaves exactly one occurrence of 5, and 5 is a member after two toggles
exactly when it was before. -/
theorem toggleLike_toggle_membership_check :
    (5 ∈ likesOf (toggleLike (toggleLike exStore1 1 5).2 1 5).2 1 ↔
      5 ∈ exPost1.likes) ∧
    (likesOf (toggleLike exStore1 1 5).2 1).count 5 = 1 :=
  ⟨(toggleLike_toggle_membership exStore1 1 5 exPost1 (by decide)).1 5,
   (toggleLike_toggle_membership exStore1 1 5 exPost1 (by decide)).2 (by decide)⟩

/-- C7: a toggle-like request naming a post id missing from the store
answers with the generic 500 (never 404) and leaves the store
unchanged. -/
theorem toggleLike_missing_post_500 (s : Store) (pid uid : Nat)
    (h : findById s pid = none) :
    toggleLike s pid uid = (.serverError, s) ∧
    (toggleLike s pid uid).1.status = 500 ∧
    (toggleLike s pid uid).1.status ≠ 404 := by
  have e : toggleLike s pid uid = (.serverError, s) := by
    simp [toggleLike, h]
  exact ⟨e, by rw [e]; rfl, by rw [e]; simp [Resp.status]⟩

/-- C7 witness: toggling a like on the empty store answers 500 and
changes nothing. -/
theorem toggleLike_missing_post_500_check :
    toggleLike [] 1 2 = (.serverError, []) ∧
    (toggleLike [] 1 2).1.status = 500 ∧
    (toggleLike [] 1 2).1.status ≠ 404 :=
  toggleLike_missing_post_500 [] 1 2 (by decide)

/-- C2: for every post owned by user A and every authenticated caller B
with B distinct from A, delete and (validly-bodied) update answer 403
and leave the store, hence the post and all its fields, unchanged; the
owner A deletes the post (it is gone from the store) and update by A
replaces its fields. -/
theorem deleteUpdate_ownership (s : Store) (pid A B : Nat) (c i : String)
    (p : Post) (hp : findById s pid = some p) (hA : p.userId = A)
    (hval : 5 ≤ c.length ∧ c.length ≤ 100) :
    (B ≠ A →
      deletePost s pid B = (.forbidden deleteForbiddenMsg, s) ∧
      updatePost s pid (some c) (some i) B = (.forbidden updateForbiddenMsg, s)) ∧
    ((deletePost s pid A).2 = s.filter (fun q => q.id != pid) ∧
      findById (deletePost s pid A).2 pid = none) ∧
    findById (updatePost s pid (some c) (some i) A).2 pid =
      some { p with caption := c, image := i } := by
  have hvk : validateCaptionImage (some c) (some i) = [] := by
    simp [validateCaptionImage, hval]
  have he : (p.userId == A) = true := by simp [hA]
  refine ⟨fun hB => ?_, ?_, ?_⟩
  · have hne : (p.userId == B) = false := by
      simp [hA]
      exact fun hc => hB hc.symm
    constructor
    · simp [deletePost, hp, hne]
    · simp [updatePost, hvk, hp, hne]
  · have e : (deletePost s pid A).2 = s.filter (fun q => q.id != pid) := by
      simp [deletePost, hp, he]
    exact ⟨e, by rw [e]; exact findById_filter_ne s pid⟩
  · have e : (updatePost s pid (some c) (some i) A).2 =
        updatePostIn s pid (fun q => { q with caption := c, image := i }) := by
      simp [updatePost, hvk, hp, he]
    rw [e]
    exact findById_updatePostIn_self s pid
      (fun q => { q with caption := c, image := i }) (fun q => rfl) p hp

/-- C2 witness: on a one-post store owned by user 7, caller 8 gets 403
from delete and update with nothing changed, while owner 7 deletes the
post and updates its fields. -/
theorem deleteUpdate_ownership_check :
    (deletePost exStore1 1 8 = (.forbidden deleteForbiddenMsg, exStore1) ∧
      updatePost exStore1 1 (some "abcde") (some "img2") 8 =
        (.forbidden updateForbiddenMsg, exStore1)) ∧
    ((deletePost exStore1 1 7).2 = exStore1.filter (fun q => q.id != 1) ∧
      findById (deletePost exStore1 1 7).2 1 = none) ∧
    findById (updatePost exStore1 1 (some "abcde") (some "img2") 7).2 1 =
      some { exPost1 with caption := "abcde", image := "img2" } :=
  ⟨(deleteUpdate_ownership exStore1 1 7 8 "abcde" "img2" exPost1 (by decide)
      rfl (by decide)).1 (by decide),
   (deleteUpdate_ownership exStore1 1 7 8 "abcde" "img2" exPost1 (by decide)
      rfl (by decide)).2.1,
   (deleteUpdate_ownership exStore1 1 7 8 "abcde" "img2" exPost1 (by decide)
      rfl (by decide)).2.2⟩

/-- C9: a successful update by the owner replaces only caption and
image; userId, likes, comments and createdAt of the post are unchanged. -/
theorem updatePost_frame (s : Store) (pid : Nat) (c i : String) (uid : Nat)
    (p : Post) (hp : findById s pid = some p) (hown : p.userId = uid)
    (hval : 5 ≤ c.length ∧ c.length ≤ 100) :
    (findById (updatePost s pid (some c) (some i) uid).2 pid).map Post.caption =
      some c ∧
    (findById (updatePost s pid (some c) (some i) uid).2 pid).map Post.image =
      some i ∧
    (findById (updatePost s pid (some c) (some i) uid).2 pid).map Post.userId =
      some p.userId ∧
    (findById (updatePost s pid (some c) (some i) uid).2 pid).map Post.likes =
      some p.likes ∧
    (findById (updatePost s pid (some c) (some i) uid).2 pid).map Post.comments =
      some p.comments ∧
    (findById (updatePost s pid (some c) (some i) uid).2 pid).map Post.createdAt =
      some p.createdAt := by
  have hvk : validateCaptionImage (some c) (some i) = [] := by
    simp [validateCaptionImage, hval]
  have he : (p.userId == uid) = true := by simp [hown]
  have e : (updatePost s pid (some c) (some i) uid).2 =
      updatePostIn s pid (fun q => { q with caption := c, image := i }) := by
    simp [updatePost, hvk, hp, he]
  have f1 := findById_updatePostIn_self s pid
    (fun q => { q with caption := c, image := i }) (fun q => rfl) p hp
  rw [e, f1]
  exact ⟨rfl, rfl, rfl, rfl, rfl, rfl⟩

/-- C9 witness: owner 7 updating the one-post store replaces caption
and image and leaves the other fields of the post as they were. -/
theorem updatePost_frame_check :
    (findById (updatePost exStore1 1 (some "fresh") (some "new.png") 7).2 1).map
      Post.caption = some "fresh" ∧
    (findById (updatePost exStore1 1 (some "fresh") (some "new.png") 7).2 1).map
      Post.userId = some exPost1.userId ∧
    (findById (updatePost exStore1 1 (some "fresh") (some "new.png") 7).2 1).map
      Post.likes = some exPost1.likes ∧
    (findById (updatePost exStore1 1 (some "fresh") (some "new.png") 7).2 1).map
      Post.comments = some exPost1.comments ∧
    (findById (updatePost exStore1 1 (some "fresh") (some "new.png") 7).2 1).map
      Post.createdAt = some exPost1.createdAt :=
  ⟨(updatePost_frame exStore1 1 "fresh" "new.png" 7 exPost1 (by decide) rfl
      (by decide)).1,
   (updatePost_frame exStore1 1 "fresh" "new.png" 7 exPost1 (by decide) rfl
      (by decide)).2.2.1,
   (updatePost_frame exStore1 1 "fresh" "new.png" 7 exPost1 (by decide) rfl
      (by decide)).2.2.2.1,
   (updatePost_frame exStore1 1 "fresh" "new.png" 7 exPost1 (by decide) rfl
      (by decide)).2.2.2.2.1,
   (updatePost_frame exStore1 1 "fresh" "new.png" 7 exPost1 (by decide) rfl
      (by decide)).2.2.2.2.2⟩

/-- C10: the update route evaluates validation before the ownership
check, so any invalid body answers 400 with the store unchanged, for
every caller, owner or not. -/
theorem update_validation_before_ownership (s : Store) (pid : Nat)
    (caption image : Option String) (callerId : Nat)
    (h : bodyInvalid caption image) :
    (updatePost s pid caption image callerId).1.status = 400 ∧
    (updatePost s pid caption image callerId).2 = s := by
  rcases h with hc | ⟨c, hc, hlen⟩ | hi
  · subst hc
    simp [updatePost, validateCaptionImage, Resp.status]
  · subst hc
    have hcond : ¬(5 ≤ c.length ∧ c.length ≤ 100) := by omega
    simp [updatePost, validateCaptionImage, hcond, Resp.status]
  · subst hi
    cases caption with
    | none => simp [updatePost, validateCaptionImage, Resp.status]
    | some c =>
      by_cases hcond : 5 ≤ c.length ∧ c.length ≤ 100
      · simp [updatePost, validateCaptionImage, hcond, Resp.status]
      · simp [updatePost, validateCaptionImage, hcond, Resp.status]

/-- C10 witness: the non-owner 8 sending a 4-character caption to the
update route gets 400, not 403, and the store is unchanged. -/
theorem update_validation_before_ownership_check :
    (updatePost exStore1 1 (some "abcd") (some "img2") 8).1.status = 400 ∧
    (updatePost exStore1 1 (some "abcd") (some "img2") 8).2 = exStore1 :=
  update_validation_before_ownership exStore1 1 (some "abcd") (some "img2") 8
    (Or.inr (Or.inl ⟨"abcd", rfl, Or.inl (by decide)⟩))

/-- C3: creating with a caption of length 4 or 101 answers 400 with the
message of the first violated rule (the length rule), for any image
field; captions of length exactly 5 or exactly 100 pass validation and
the post is persisted — the 5..100 bounds are inclusive. -/
theorem createPost_caption_boundaries (s : Store) (c : String)
    (imgOpt : Option String) (i : String) (uid nid now : Nat) :
    ((c.length = 4 ∨ c.length = 101) →
      createPost s (some c) imgOpt uid nid now =
        (.badRequest captionLengthMsg, s)) ∧
    ((c.length = 5 ∨ c.length = 100) →
      (createPost s (some c) (some i) uid nid now).2 =
        s ++ [⟨nid, c, i, uid, [], [], now⟩] ∧
      (createPost s (some c) (some i) uid nid now).1 =
        .ok (sortByCreatedAtDesc (s ++ [⟨nid, c, i, uid, [], [], now⟩]))) := by
  constructor
  · intro hlen
    have hcond : ¬(5 ≤ c.length ∧ c.length ≤ 100) := by
      rcases hlen with h | h <;> omega
    cases imgOpt with
    | none => simp [createPost, validateCaptionImage, hcond]
    | some i2 => simp [createPost, validateCaptionImage, hcond]
  · intro hlen
    have hcond : 5 ≤ c.length ∧ c.length ≤ 100 := by
      rcases hlen with h | h <;> omega
    constructor <;> simp [createPost, validateCaptionImage, hcond]

/-- C3 witness: captions of length 4 and 101 are rejected with the
length message; captions of length 5 and 100 are persisted. -/
theorem createPost_caption_boundaries_check :
    createPost [] (some "abcd") (some "x.png") 7 1 10 =
      (.badRequest captionLengthMsg, []) ∧
    createPost [] (some cap101) (some "x.png") 7 1 10 =
      (.badRequest captionLengthMsg, []) ∧
    (createPost [] (some "abcde") (some "x.png") 7 1 10).2 =
      [⟨1, "abcde", "x.png", 7, [], [], 10⟩] ∧
    (createPost [] (some cap100) (some "x.png") 7 1 10).2 =
      [⟨1, cap100, "x.png", 7, [], [], 10⟩] :=
  ⟨(createPost_caption_boundaries [] "abcd" (some "x.png") "x.png" 7 1 10).1
      (Or.inl (by decide)),
   (createPost_caption_boundaries [] cap101 (some "x.png") "x.png" 7 1 10).1
      (Or.inr (by decide)),
   ((createPost_caption_boundaries [] "abcde" (some "x.png") "x.png" 7 1 10).2
      (Or.inl (by decide))).1,
   ((createPost_caption_boundaries [] cap100 (some "x.png") "x.png" 7 1 10).2
      (Or.inr (by decide))).1⟩

/-- C4 (amended): GET / is always sorted by createdAt descending, but
GET /userposts/:userId applies no sort: it returns exactly the posts
of the given user in natural store order (a sublist of the store). -/
theorem feeds_sorting_amended (s : Store) (uid : Nat) :
    List.Sorted createdAtGe (getAllList s) ∧
    userPostsList s uid = s.filter (fun p => p.userId == uid) ∧
    List.Sublist (userPostsList s uid) s :=
  ⟨List.sorted_insertionSort createdAtGe s, rfl, List.filter_sublist s⟩

/-- C4 counterexample: with the older post stored first, the user feed
of user 7 comes back oldest first, which is not sorted by createdAt
descending. -/
theorem userposts_not_sorted_cx :
    userPostsList exStore4 7 = [exOld, exNew] ∧
    ¬ List.Sorted createdAtGe (userPostsList exStore4 7) := by decide

/-- C5: at the failing input the trending route keeps the cap of 5 but
orders by the largest liker id (the MongoDB descending array sort on
the likes field), not by likes count: the post with ONE like by user 9
precedes the post with TWO likes by users 1 and 2. -/
theorem trending_sort_divergence :
    trendingList exStoreT = [exT1, exT2] ∧
    (trendingList exStoreT).length ≤ 5 ∧
    exT1.likes.length < exT2.likes.length ∧
    ¬ List.Sorted likesCountGe (trendingList exStoreT) := by decide

/-- C6: a successful comment by an existing user appends exactly one
entry to the comments of the target post, leaves every other post
unchanged, stores an author snapshot with no password field, and
answers with the full sorted list. -/
theorem commentPost_appends_snapshot (s : Store) (users : List UserDoc)
    (pid uid : Nat) (c : String) (p : Post) (u : UserDoc)
    (hp : findById s pid = some p) (hu : findUserById users uid = some u) :
    findById (commentPost s users pid uid (some c)).2 pid =
      some { p with comments := p.comments ++ [⟨snapshot u, c⟩] } ∧
    (∀ qid, qid ≠ pid →
      findById (commentPost s users pid uid (some c)).2 qid = findById s qid) ∧
    (∀ kv ∈ snapshot u, kv.1 ≠ "password") ∧
    (commentPost s users pid uid (some c)).1 =
      .ok (sortByCreatedAtDesc (commentPost s users pid uid (some c)).2) := by
  have e : (commentPost s users pid uid (some c)).2 =
      updatePostIn s pid
        (fun q => { q with comments := q.comments ++ [⟨snapshot u, c⟩] }) := by
    simp [commentPost, hp, hu]
  refine ⟨?_, ?_, ?_, ?_⟩
  · rw [e]
    exact findById_updatePostIn_self s pid
      (fun q => { q with comments := q.comments ++ [⟨snapshot u, c⟩] })
      (fun q => rfl) p hp
  · intro qid hq
    rw [e]
    exact findById_updatePostIn_other s pid qid
      (fun q => { q with comments := q.comments ++ [⟨snapshot u, c⟩] })
      (fun q => rfl) hq
  · intro kv hkv
    simpa using (List.mem_filter.mp hkv).2
  · simp [commentPost, hp, hu]

/-- C6 witness: user 7 commenting on the one-post store appends the
one expected entry with the password-free snapshot. -/
theorem commentPost_appends_snapshot_check :
    findById (commentPost exStore1 exUsers 1 7 (some "nice post")).2 1 =
      some { exPost1 with comments :=
        exPost1.comments ++ [⟨snapshot exUser, "nice post"⟩] } :=
  (commentPost_appends_snapshot exStore1 exUsers 1 7 "nice post" exPost1 exUser
    (by decide) (by decide)).1

/-- C8 (amended): a comment request with the comment field missing is
rejected with 400 and nothing changes; but a present-and-EMPTY comment
string passes the exists check, so the handler answers 200 and appends
one (empty-text) comment. -/
theorem comment_missing_vs_empty (s : Store) (users : List UserDoc)
    (pid uid : Nat) (p : Post) (hp : findById s pid = some p) :
    commentPost s users pid uid none = (.badRequest commentRequiredMsg, s) ∧
    (commentPost s users pid uid (some "")).1.status = 200 ∧
    (commentsOf (commentPost s users pid uid (some "")).2 pid).length =
      p.comments.length + 1 := by
  have e : ∃ ub, (commentPost s users pid uid (some "")).2 =
      updatePostIn s pid
        (fun q => { q with comments := q.comments ++ [⟨ub, ""⟩] }) := by
    cases hu : findUserById users uid with
    | none => exact ⟨[], by simp [commentPost, hp, hu]⟩
    | some u => exact ⟨snapshot u, by simp [commentPost, hp, hu]⟩
  obtain ⟨ub, e⟩ := e
  refine ⟨rfl, ?_, ?_⟩
  · cases hu : findUserById users uid with
    | none => simp [commentPost, hp, hu, Resp.status]
    | some u => simp [commentPost, hp, hu, Resp.status]
  · rw [commentsOf, e, findById_updatePostIn_self s pid
      (fun q => { q with comments := q.comments ++ [⟨ub, ""⟩] })
      (fun q => rfl) p hp]
    simp

/-- C8 witness: the missing-comment case is rejected with 400; the
empty-string case grows the comments of the post by one. -/
theorem comment_missing_vs_empty_check :
    commentPost exStore1 exUsers 1 7 none =
      (.badRequest commentRequiredMsg, exStore1) ∧
    (commentsOf (commentPost exStore1 exUsers 1 7 (some "")).2 1).length =
      exPost1.comments.length + 1 :=
  ⟨(comment_missing_vs_empty exStore1 exUsers 1 7 exPost1 (by decide)).1,
   (comment_missing_vs_empty exStore1 exUsers 1 7 exPost1 (by decide)).2.2⟩

/-- C8 counterexample: an empty-string comment is NOT rejected: the
response is 200 (not 400) and a comment with empty text is appended. -/
theorem comment_empty_accepted_cx :
    (commentPost exStore1 exUsers 1 7 (some "")).1.status = 200 ∧
    (commentPost exStore1 exUsers 1 7 (some "")).1.status ≠ 400 ∧
    findById (commentPost exStore1 exUsers 1 7 (some "")).2 1 =
      some { exPost1 with comments := [⟨snapshot exUser, ""⟩] } := by decide

end SocialUwU
